import Mathlib

/-!
Shallow embedding of the pytello drone session manager
(src/droneapp/models/drone_manager.py) and proofs about its
command channel, patrol state machine, video pipeline and
face-tracking controller.

Conventions of the embedding:
* Python ints are Nat/Int; the float arithmetic of the tracker is carried
  out in ℚ (all quantities involved are half-integers or small-denominator
  fractions, where the float comparisons of the source coincide with the
  exact rational ones).
* The shared current-response slot written concurrently by the listener
  thread is modelled by an arrival schedule, a function from the number of
  elapsed sleep intervals to the slot's content at that moment.
* A received datagram is modelled by its decoded UTF-8 text; decoding a
  datagram is therefore the identity in the model.
* Python-level exceptions are explicit: fallible operations return
  `Except PyErr` or report an `Option PyErr` outcome.
-/

/-- Module constants, from the top of drone_manager.py.
DEFAULT_DISTANCE is 0.30 metres; `move` multiplies it by 100 and rounds,
giving the integer distance 30 used in every movement command. -/
def DEFAULT_DISTANCE : ℚ := 30 / 100

/-- DEFAULT_SPEED = 10. -/
def DEFAULT_SPEED : ℕ := 10

/-- FRAME_X = int(960/3) = 320. -/
def FRAME_X : ℕ := 960 / 3

/-- FRAME_Y = int(720/3) = 240. -/
def FRAME_Y : ℕ := 720 / 3

/-- FRAME_AREA = FRAME_X * FRAME_Y = 76800. -/
def FRAME_AREA : ℕ := FRAME_X * FRAME_Y

/-- FRAME_SIZE = FRAME_AREA * 3 = 230400, the byte size of one raw frame. -/
def FRAME_SIZE : ℕ := FRAME_AREA * 3

/-- FRAME_CENTER_X = FRAME_X / 2 (Python float division, exactly 160). -/
def FRAME_CENTER_X : ℚ := (FRAME_X : ℚ) / 2

/-- FRAME_CENTER_Y = FRAME_Y / 2 (Python float division, exactly 120). -/
def FRAME_CENTER_Y : ℚ := (FRAME_Y : ℚ) / 2

/-- A received datagram, represented by its decoded UTF-8 text. -/
abbrev Datagram := String

/-- A Python exception surfacing from the embedded code. -/
inductive PyErr where
  | attributeError : String → PyErr
  | typeError : String → PyErr
  | valueError : String → PyErr
deriving DecidableEq, Repr

/-- The response-wait loop of `_send_command` (drone_manager.py lines
163-168):

    retry = 0
    while self.response is None:
        time.sleep(0.3)
        if retry > 3:
            break
        retry += 1

`slot k` is the content of `self.response` after `k` sleep intervals
(`slot 0` is its content when the command was sent).  `fuel` is `4 - retry`,
so the loop is entered with `fuel = 4`; the value returned is the number of
sleep intervals elapsed when the loop is left, which is also the time at
which the code after the loop reads the slot. -/
def waitResp (slot : ℕ → Option Datagram) : ℕ → ℕ → ℕ
  | 0, k =>
    match slot k with
    | some _ => k
    | none => k + 1
  | f + 1, k =>
    match slot k with
    | some _ => k
    | none => waitResp slot f (k + 1)

/-- Everything `_send_command` does that is observable from outside:
the value it returns, the content of the response slot when it is done,
the datagrams it put on the wire, whether it logged the dropped-command
warning, the state of the single-flight permit afterwards, and how many
poll sleeps it performed. -/
structure DispatchOut where
  ret : Option Datagram
  slotAfter : Option Datagram
  sent : List String
  warned : Bool
  semFreeAfter : Bool
  sleeps : ℕ
deriving DecidableEq, Repr

/-- The body of `_send_command(command, blocking)` (drone_manager.py lines
155-179).  `semFree` says whether the single-flight `_command_semaphore`
is free at the call; a blocking acquire on a busy permit waits until the
holder releases it and then succeeds, a non-blocking one fails at once.
On acquire: the command is sent over the socket, the response slot is
polled by `waitResp`, the slot content found there is decoded and
returned and the slot is cleared; the permit is released by the exit-stack
callback.  Without the permit: a warning is logged and nothing else
happens (the implicit return value is None). -/
def sendCommandBody (slot : ℕ → Option Datagram) (semFree : Bool)
    (command : String) (blocking : Bool) : DispatchOut :=
  let is_acquire := if semFree then true else blocking
  if is_acquire then
    let k := waitResp slot 4 0
    { ret := slot k, slotAfter := none, sent := [command], warned := false,
      semFreeAfter := true, sleeps := k }
  else
    { ret := none, slotAfter := slot 0, sent := [], warned := true,
      semFreeAfter := semFree, sleeps := 0 }

/-- The pair `(command, blocking)` handed to the worker thread spawned by
the public `send_command`. -/
structure Spawned where
  command : String
  blocking : Bool
deriving DecidableEq, Repr

/-- The public `send_command(command, blocking=True)` (drone_manager.py
lines 148-153): it constructs a Thread running `_send_command` with
arguments `(command, blocking)` and starts it.  `Thread.start()` returns
None and `send_command` has no return statement, so the value returned to
the caller is always None; the result of `_send_command` is computed on
the spawned thread and discarded. -/
def send_command (command : String) (blocking : Bool) : Spawned × Option Datagram :=
  (⟨command, blocking⟩, none)

/-- One movement-dispatch helper of the manager: `move(direction, distance)`
sends `f'{direction} {distance_cm}'` with `distance_cm = int(round(distance
* 100))`; for the default distance 0.30 this is exactly 30. -/
def moveCommand (direction : String) (distance_cm : ℕ) : String :=
  direction ++ " " ++ toString distance_cm

/-- The dead maneuver table in the body of the patrol loop (drone_manager.py
lines 257-273): after `change_status += 1`, the command dispatched at each
status value, and the status value carried to the next iteration
(status 6 dispatches nothing and resets to 0).  The commands are those
built by up() / forward() / back() / flip_left() with default distances. -/
def patrolStep (change_status : ℕ) : Option String × ℕ :=
  let cmd :=
    if change_status = 1 then some (moveCommand ("up") 30)
    else if change_status = 2 then some (moveCommand ("forward") 30)
    else if change_status = 3 then some (moveCommand ("back") 30)
    else if change_status = 4 then some ("flip l")
    else if change_status = 5 then some (moveCommand ("up") 30)
    else none
  let next := if change_status = 6 then 0 else change_status
  (cmd, next)

/-- The commands `patrolStep` would emit over `n` loop iterations starting
from a given `change_status` value (status is incremented at the top of
each iteration, as in the source). -/
def patrolTrace (change_status : ℕ) : ℕ → List String
  | 0 => []
  | n + 1 =>
    let st := patrolStep (change_status + 1)
    (st.1.toList) ++ patrolTrace st.2 n

/-- The body of `_patrol(self, patrol_semaphore, patrol_event)`
(drone_manager.py lines 248-276), as the interpreter executes it.
`acquired` is the outcome of the non-blocking semaphore acquire.  On
acquire the method logs and then executes

    with contextlib.ExitStack as stack:

which names the `ExitStack` class itself rather than an instance
(`contextlib.ExitStack()`, as line 158 correctly writes); a class object
does not support the context-manager protocol, so this statement raises
TypeError before the maneuver loop is reached.  (Even were that fixed, the
`patrol_event` passed in is `self.patrol_event`, which `__init__` sets to
None and nothing ever assigns an Event, so `patrol_event.is_set()` would
raise AttributeError.)  Without the permit the method only logs a warning.
The result is the exception escaping the run, if any, paired with the
list of movement commands dispatched during the run. -/
def patrolRun (acquired : Bool) : Option PyErr × List String :=
  if acquired then
    (some (PyErr.typeError ("ExitStack class object is not a context manager")), [])
  else
    (none, [])

/-- The patrol/tracking state of the manager that the frame loop consults:
the face-detect toggle, the `is_patrol` flag, and the `patrol_event`
attribute (`none` models Python None; `__init__` sets it to None and no
code ever assigns anything else to it). -/
structure TrackState where
  is_enable_face_detect : Bool
  is_patrol : Bool
  patrol_event : Option Unit
deriving DecidableEq, Repr

/-- stop_patrol (drone_manager.py lines 278-289), as the interpreter
executes it.  When `is_patrol` is set it evaluates
`self.patrol_event.set()`: since `patrol_event` is None this raises
AttributeError.  (Were an Event present, the join loop's
`self._thread_patrol.is_Alive()` would raise AttributeError as well:
Thread has `is_alive`, not `is_Alive`.)  Only the error-free path would
reach `self.is_patrol = False`. -/
def stop_patrol (st : TrackState) : Except PyErr TrackState :=
  if st.is_patrol then
    match st.patrol_event with
    | none =>
      Except.error (PyErr.attributeError ("NoneType object has no attribute set"))
    | some _ =>
      Except.error (PyErr.attributeError ("Thread object has no attribute is_Alive"))
  else
    Except.ok st

/-- An axis-aligned face-detection rectangle `(x, y, width, height)` in
pixel coordinates, as returned by `detectMultiScale`. -/
structure Rect where
  x : ℕ
  y : ℕ
  width : ℕ
  height : ℕ
deriving DecidableEq, Repr

/-- The four-axis corrective command `go drone_x drone_y drone_z speed`
assembled by the frame loop. -/
@[ext]
structure GoCmd where
  x : ℤ
  y : ℤ
  z : ℤ
  speed : ℕ
deriving DecidableEq, Repr

/-- The command text sent for a `GoCmd`. -/
def renderGo (g : GoCmd) : String :=
  let x := toString g.x
  let y := toString g.y
  let z := toString g.z
  let speed := toString g.speed
  s!"go {x} {y} {z} {speed}"

/-- The per-face geometry-to-command mapping of the frame loop
(drone_manager.py lines 346-365): center offsets against the frame
center, area fraction against the frame area, then the six sequential
threshold assignments into `drone_x, drone_y, drone_z` (initialised to 0,
speed fixed to the configured speed).  All arithmetic is exact in ℚ:
centers are half-integers and the area fractions k/76800 are far coarser
than double rounding, so the source's float comparisons agree with the
rational ones. -/
def trackingGo (speed : ℕ) (f : Rect) : GoCmd :=
  let face_center_x : ℚ := (f.x : ℚ) + (f.width : ℚ) / 2
  let face_center_y : ℚ := (f.y : ℚ) + (f.height : ℚ) / 2
  let diff_x : ℚ := FRAME_CENTER_X - face_center_x
  let diff_y : ℚ := FRAME_CENTER_Y - face_center_y
  let face_area : ℕ := f.width * f.height
  let percent_face : ℚ := (face_area : ℚ) / (FRAME_AREA : ℚ)
  let drone_y : ℤ := if diff_x < -30 then -30 else 0
  let drone_y : ℤ := if diff_x > 30 then 30 else drone_y
  let drone_z : ℤ := if diff_y < -15 then -30 else 0
  let drone_z : ℤ := if diff_y > 15 then 30 else drone_z
  let drone_x : ℤ := if percent_face > 0.30 then -30 else 0
  let drone_x : ℤ := if percent_face < 0.02 then 30 else drone_x
  ⟨drone_x, drone_y, drone_z, speed⟩

/-- The corrective command dispatched (non-blocking) for one frame, given
the detector's rectangles: the loop body runs for the first rectangle and
ends in `break`, so only the first rectangle is used; with no rectangles
the loop body never runs and nothing is dispatched. -/
def trackingCommand (speed : ℕ) (faces : List Rect) : Option GoCmd :=
  match faces with
  | [] => none
  | f :: _ => some (trackingGo speed f)

/-- The face-detect prefix of one `video_jpeg_generator` iteration
(drone_manager.py lines 336-368): when detection is enabled a running
patrol is stopped first via `stop_patrol` (whose exception propagates out
of the generator), and only then does the detect-and-correct step run,
yielding the optional corrective command for the frame. -/
def faceTrackStep (st : TrackState) (speed : ℕ) (faces : List Rect) :
    Except PyErr (Option GoCmd) :=
  if st.is_enable_face_detect then
    match (if st.is_patrol then stop_patrol st else Except.ok st) with
    | Except.error e => Except.error e
    | Except.ok _ => Except.ok (trackingCommand speed faces)
  else
    Except.ok none

/-- One read attempt of the decoder's output stream. -/
inductive ReadResult where
  | failure : String → ReadResult
  | bytes : List ℕ → ReadResult
deriving DecidableEq, Repr

/-- What one iteration of `video_binary_generator` does with a read. -/
inductive GenStep where
  | retry : GenStep
  | frame : List ℕ → GenStep
  | raise : PyErr → GenStep
deriving DecidableEq, Repr

/-- One iteration of `video_binary_generator` (drone_manager.py lines
314-326).  A read that raises is caught and retried (`continue`); an
empty read fails the `if not frame` test and is retried; otherwise the
bytes reach `np.fromstring(...).reshape(FRAME_Y, FRAME_X, 3)`, which is
outside the try block and succeeds exactly when the byte count is
FRAME_SIZE — on a short non-empty read it raises ValueError, which
propagates out of the generator. -/
def videoBinaryStep (r : ReadResult) : GenStep :=
  match r with
  | ReadResult.failure _ => GenStep.retry
  | ReadResult.bytes bs =>
    if bs.isEmpty then GenStep.retry
    else if bs.length = FRAME_SIZE then GenStep.frame bs
    else GenStep.raise (PyErr.valueError ("cannot reshape array"))

/-- The retry loop of `snapshot` (drone_manager.py lines 389-395):

    retry = 0
    while retry < 10:
        if not self.is_patrol:
            return True
        time.sleep(0.5)
        retry += 1
    return False

`patrolling i` is the value of `self.is_patrol` observed at the i-th
check. -/
def snapshotWait (patrolling : ℕ → Bool) (retry : ℕ) : Bool :=
  if h : retry < 10 then
    if patrolling retry then snapshotWait patrolling (retry + 1) else true
  else
    false
termination_by 10 - retry
decreasing_by omega

/-- The whole `snapshot` call: it sets `self.is_snapshot = True` first and
never clears it (only the frame loop does), then runs the retry loop.
Result: (value returned to the caller, value of `is_snapshot` when the
call returns). -/
def snapshot (patrolling : ℕ → Bool) : Bool × Bool :=
  (snapshotWait patrolling 0, true)

/-- The join-poll loop of `stop` (drone_manager.py lines 136-141):

    retry = 0
    while self._response_thread_from_drone.is_alive():
        time.sleep(0.3)
        if retry > 100:
            break
        retry += 1

`alive k` is the liveness of the listener thread observed at the k-th
check; `fuel` is `101 - retry`, so the loop is entered with `fuel = 101`.
The value returned is the number of sleep intervals performed. -/
def joinWait (alive : ℕ → Bool) : ℕ → ℕ → ℕ
  | 0, k => if alive k then k + 1 else k
  | f + 1, k => if alive k then joinWait alive f (k + 1) else k

/-- The lifecycle flags `stop` manipulates: the shared cancellation event,
whether the command socket has been closed, and whether the interrupt
signal was delivered to the decoder process. -/
structure SessionFlags where
  stop_event : Bool
  socket_closed : Bool
  decoder_signalled : Bool
deriving DecidableEq, Repr

/-- stop (drone_manager.py lines 133-146), straight-line: set the shared
stop event, poll the listener thread's liveness with `joinWait`, close
the socket, then deliver the interrupt signal to the decoder process
(`os.kill(self.proc.pid, signal.CTRL_C_EVENT)`, an effect at the OS
boundary).  Result: the final flags and the number of poll sleeps.
`__del__` calls exactly this. -/
def stopSession (alive : ℕ → Bool) (st : SessionFlags) : SessionFlags × ℕ :=
  let st1 : SessionFlags := { st with stop_event := true }
  let polls := joinWait alive 101 0
  let st2 : SessionFlags := { st1 with socket_closed := true }
  let st3 : SessionFlags := { st2 with decoder_signalled := true }
  (st3, polls)



/-- waitResp performs at most `fuel + 1` sleeps beyond its starting time. -/
theorem waitResp_le (slot : ℕ → Option Datagram) :
    ∀ fuel k, waitResp slot fuel k ≤ k + fuel + 1 := by
  intro fuel
  induction fuel with
  | zero =>
    intro k
    simp only [waitResp]
    cases slot k <;> simp
  | succ f ih =>
    intro k
    cases h : slot k with
    | none =>
      simp only [waitResp, h]
      have := ih (k + 1)
      omega
    | some d =>
      simp only [waitResp, h]
      omega

/-- If the slot stays empty through the whole window the loop reads, the
loop runs to its bound and the final read is at time `k + fuel + 1`. -/
theorem waitResp_none (slot : ℕ → Option Datagram) :
    ∀ fuel k, (∀ i, i ≤ k + fuel + 1 → slot i = none) →
      waitResp slot fuel k = k + fuel + 1 := by
  intro fuel
  induction fuel with
  | zero =>
    intro k h
    simp only [waitResp]
    rw [h k (by omega)]
  | succ f ih =>
    intro k h
    simp only [waitResp, h k (by omega)]
    have := ih (k + 1) (fun i hi => h i (by omega))
    omega

/-- joinWait performs at most `fuel + 1` sleeps beyond its starting time. -/
theorem joinWait_le (alive : ℕ → Bool) :
    ∀ fuel k, joinWait alive fuel k ≤ k + fuel + 1 := by
  intro fuel
  induction fuel with
  | zero =>
    intro k
    simp only [joinWait]
    split <;> omega
  | succ f ih =>
    intro k
    simp only [joinWait]
    split
    · have := ih (k + 1)
      omega
    · omega

/-- Projection of the lateral term out of `trackingGo`: the two sequential
assignments to drone_y collapse to this nested conditional. -/
theorem trackingGo_y_eq (speed : ℕ) (f : Rect) :
    (trackingGo speed f).y =
      (if FRAME_CENTER_X - ((f.x : ℚ) + (f.width : ℚ) / 2) > 30 then 30
       else if FRAME_CENTER_X - ((f.x : ℚ) + (f.width : ℚ) / 2) < -30 then -30
       else 0) := rfl

/-- Projection of the vertical term out of `trackingGo`. -/
theorem trackingGo_z_eq (speed : ℕ) (f : Rect) :
    (trackingGo speed f).z =
      (if FRAME_CENTER_Y - ((f.y : ℚ) + (f.height : ℚ) / 2) > 15 then 30
       else if FRAME_CENTER_Y - ((f.y : ℚ) + (f.height : ℚ) / 2) < -15 then -30
       else 0) := rfl

/-- Projection of the forward/back term out of `trackingGo`. -/
theorem trackingGo_x_eq (speed : ℕ) (f : Rect) :
    (trackingGo speed f).x =
      (if ((f.width * f.height : ℕ) : ℚ) / (FRAME_AREA : ℚ) < 0.02 then 30
       else if ((f.width * f.height : ℕ) : ℚ) / (FRAME_AREA : ℚ) > 0.30 then -30
       else 0) := rfl

/-- The speed term of the corrective command is the configured speed. -/
theorem trackingGo_speed_eq (speed : ℕ) (f : Rect) :
    (trackingGo speed f).speed = speed := rfl

/-- The maneuver table of the dead patrol loop body, were it reachable,
cycles through exactly the five commands ascend, advance, retreat,
lateral-flip, ascend, with a sixth silent iteration resetting the status. -/
theorem patrolStep_dead_table_cycle :
    patrolTrace 0 6 = [moveCommand ("up") 30, moveCommand ("forward") 30,
      moveCommand ("back") 30, "flip l", moveCommand ("up") 30] ∧
    patrolTrace 0 12 = patrolTrace 0 6 ++ patrolTrace 0 6 := by
  constructor <;> rfl

/-- C1: the claim says an uninterrupted patrol run submits the five-step
cycle (up, forward, back, flip left, up) through the command channel.  In
the code the run dispatches nothing at all: with the semaphore acquired,
the statement `with contextlib.ExitStack as stack:` applies the
context-manager protocol to the ExitStack class object and raises
TypeError before the first maneuver; without it, only a warning is
logged.  Either way the list of dispatched movement commands is empty. -/
theorem c1_patrol_run_dispatches_nothing :
    (patrolRun true).1 =
      some (PyErr.typeError ("ExitStack class object is not a context manager")) ∧
    (patrolRun true).2 = [] ∧ (patrolRun false).2 = [] :=
  ⟨rfl, rfl, rfl⟩

/-- C2, counterexample: with a response already sitting in the slot, the
underlying dispatch computes that response, yet the public
`send_command("command")` still hands None back to its caller — the
claim that the caller receives the response when one arrives within the
bounded wait is false for the public operation. -/
theorem c2_public_dispatch_counterexample :
    (sendCommandBody (fun _ => some ("ok")) true ("command") true).ret = some ("ok") ∧
    (send_command ("command") true).2 = none ∧
    ¬ ((send_command ("command") true).2 = some ("ok")) := by
  exact ⟨rfl, rfl, by decide⟩

/-- C2, amended: the public dispatch hands the pair (command, blocking) to
a spawned worker and always returns nil to its caller; the worker's
dispatch returns response-or-nil — the datagram found in the slot when
its bounded poll ends (decoded, consumed) with the slot left cleared, or
nil when none is there. -/
theorem c2_dispatch_response_or_nil (slot : ℕ → Option Datagram)
    (command : String) (blocking : Bool) :
    (send_command command blocking).2 = none ∧
    (send_command command blocking).1 = ⟨command, blocking⟩ ∧
    (sendCommandBody slot true command blocking).ret = slot (waitResp slot 4 0) ∧
    (sendCommandBody slot true command blocking).slotAfter = none :=
  ⟨rfl, rfl, rfl, rfl⟩

/-- C3: the claim says that with detection enabled and the patrol Running,
the frame loop stops the patrol (to Idle) before detection runs.  In the
code `stop_patrol` evaluates `self.patrol_event.set()` with
`patrol_event` still None (nothing ever assigns an Event), so the frame
step raises AttributeError out of the generator: the patrol is not
transitioned to Idle and the detection and correction steps never run. -/
theorem c3_enabled_detection_stop_patrol_raises (speed : ℕ) (faces : List Rect) :
    faceTrackStep ⟨true, true, none⟩ speed faces =
      Except.error (PyErr.attributeError ("NoneType object has no attribute set")) :=
  rfl

/-- C4, counterexample: a short (non-empty, not frame-sized) read is not
retried — it reaches the reshape outside the try block and raises
ValueError out of the frame sequence, refuting the claim that every
short or failed read is transient. -/
theorem c4_short_read_counterexample :
    videoBinaryStep (ReadResult.bytes [7]) =
      GenStep.raise (PyErr.valueError ("cannot reshape array")) ∧
    ¬ (videoBinaryStep (ReadResult.bytes [7]) = GenStep.retry) := by
  exact ⟨by decide, by decide⟩

/-- C4, amended: a read that raises is caught and retried, and an empty
read (end-of-stream) is retried, with no error propagating; a full
FRAME_SIZE read yields the frame; but a short non-empty read raises a
reshape ValueError out of the sequence. -/
theorem c4_transient_reads (e : String) (bs bad : List ℕ)
    (hlen : bs.length = FRAME_SIZE) (hbad0 : ¬ (bad = [])) (hbadlen : ¬ (bad.length = FRAME_SIZE)) :
    videoBinaryStep (ReadResult.failure e) = GenStep.retry ∧
    videoBinaryStep (ReadResult.bytes []) = GenStep.retry ∧
    videoBinaryStep (ReadResult.bytes bs) = GenStep.frame bs ∧
    videoBinaryStep (ReadResult.bytes bad) =
      GenStep.raise (PyErr.valueError ("cannot reshape array")) := by
  refine ⟨rfl, rfl, ?_, ?_⟩
  · have hne : bs.isEmpty = false := by
      cases bs with
      | nil => simp [FRAME_SIZE, FRAME_AREA, FRAME_X, FRAME_Y] at hlen
      | cons a t => rfl
    simp [videoBinaryStep, hne, hlen]
  · have hne : bad.isEmpty = false := by
      cases bad with
      | nil => exact absurd rfl hbad0
      | cons a t => rfl
    simp [videoBinaryStep, hne, hbadlen]

/-- Witness for C4's amended statement at concrete reads. -/
theorem c4_transient_reads_witness :
    videoBinaryStep (ReadResult.failure ("eof")) = GenStep.retry ∧
    videoBinaryStep (ReadResult.bytes []) = GenStep.retry ∧
    videoBinaryStep (ReadResult.bytes (List.replicate 230400 0)) =
      GenStep.frame (List.replicate 230400 0) ∧
    videoBinaryStep (ReadResult.bytes [1, 2, 3]) =
      GenStep.raise (PyErr.valueError ("cannot reshape array")) :=
  c4_transient_reads ("eof") (List.replicate 230400 0) [1, 2, 3]
    (by rw [List.length_replicate]; rfl) (by decide) (by decide)

/-- C5: with at least one detection, the frame loop dispatches the command
derived from the first rectangle; a rectangle centred more than 30 px
left of the frame centre puts the fixed lateral term +30 (nonzero) in the
go command; a rectangle covering more than 0.30 of the frame area puts
the fixed retreat term -30 (nonzero) in it; and with no detections
nothing is dispatched. -/
theorem c5_threshold_corrections (speed : ℕ) (f : Rect) (faces : List Rect) :
    trackingCommand speed (f :: faces) = some (trackingGo speed f) ∧
    (((f.x : ℚ) + (f.width : ℚ) / 2 < FRAME_CENTER_X - 30 →
      (trackingGo speed f).y = 30 ∧ ¬ ((trackingGo speed f).y = 0))) ∧
    ((0.30 : ℚ) < ((f.width * f.height : ℕ) : ℚ) / (FRAME_AREA : ℚ) →
      (trackingGo speed f).x = -30 ∧ ¬ ((trackingGo speed f).x = 0)) ∧
    trackingCommand speed [] = none := by
  refine ⟨rfl, ?_, ?_, rfl⟩
  · intro h
    have hy : (trackingGo speed f).y = 30 := by
      rw [trackingGo_y_eq]
      rw [if_pos (by linarith)]
    exact ⟨hy, by rw [hy]; decide⟩
  · intro h
    have hx : (trackingGo speed f).x = -30 := by
      rw [trackingGo_x_eq]
      have hno : ¬ (((f.width * f.height : ℕ) : ℚ) / (FRAME_AREA : ℚ) < 0.02) := by
        norm_num at h ⊢
        linarith
      rw [if_neg hno, if_pos h]
    exact ⟨hx, by rw [hx]; decide⟩

/-- Witness for C5 at a face of 200 x 150 at the left edge of the frame. -/
theorem c5_threshold_corrections_witness :
    (trackingGo 10 ⟨0, 0, 200, 150⟩).y = 30 ∧
    (trackingGo 10 ⟨0, 0, 200, 150⟩).x = -30 ∧
    trackingCommand 10 [] = none := by
  obtain ⟨-, h2, h3, h4⟩ := c5_threshold_corrections 10 ⟨0, 0, 200, 150⟩ []
  exact ⟨(h2 (by with_unfolding_all decide)).1,
         (h3 (by with_unfolding_all decide)).1, h4⟩

/-- C6: a blocking dispatch polls the response slot a bounded number of
times — at most 5 sleep intervals — and when no datagram ever lands in
the slot during that window it returns the no-response result instead of
waiting further. -/
theorem c6_blocking_dispatch_bounded (slot : ℕ → Option Datagram) (command : String) :
    (sendCommandBody slot true command true).sleeps ≤ 5 ∧
    ((∀ i, i ≤ 5 → slot i = none) →
      (sendCommandBody slot true command true).ret = none) := by
  constructor
  · show waitResp slot 4 0 ≤ 5
    have := waitResp_le slot 4 0
    omega
  · intro h
    show slot (waitResp slot 4 0) = none
    rw [waitResp_none slot 4 0 (fun i hi => h i (by omega))]
    exact h 5 (by omega)

/-- Witness for C6 with a slot that never receives a datagram. -/
theorem c6_blocking_dispatch_bounded_witness :
    (sendCommandBody (fun _ => none) true ("command") true).ret = none :=
  (c6_blocking_dispatch_bounded (fun _ => none) ("command")).2 (fun _ _ => rfl)

/-- C7: a non-blocking dispatch finding the permit held returns at once
with None, sends nothing on the wire, performs no poll sleeps, logs the
warning, and leaves the response slot and the permit as they were. -/
theorem c7_nonblocking_contention_drop (slot : ℕ → Option Datagram) (command : String) :
    sendCommandBody slot false command false =
      { ret := none, slotAfter := slot 0, sent := [], warned := true,
        semFreeAfter := false, sleeps := 0 } :=
  rfl

/-- Helper for C8: if the is_patrol flag reads false at some check inside
the ten-check window, the retry loop returns True. -/
theorem snapshotWait_idle_found (patrolling : ℕ → Bool) (i : ℕ) (hi : i < 10)
    (hf : patrolling i = false) :
    ∀ d retry, 10 - retry = d → retry ≤ i → snapshotWait patrolling retry = true := by
  intro d
  induction d with
  | zero =>
    intro retry hd hr
    omega
  | succ n ih =>
    intro retry hd hr
    have hlt : retry < 10 := by omega
    unfold snapshotWait
    rw [dif_pos hlt]
    cases hp : patrolling retry with
    | false => simp [hp]
    | true =>
      have hne : ¬ (retry = i) := by
        intro he
        rw [he, hf] at hp
        exact Bool.noConfusion hp
      simp only [hp, if_true]
      exact ih (retry + 1) (by omega) (by omega)

/-- Helper for C8: if is_patrol reads true at all ten checks, the retry
loop returns False. -/
theorem snapshotWait_never_idle (patrolling : ℕ → Bool)
    (h : ∀ i, i < 10 → patrolling i = true) :
    ∀ d retry, 10 - retry = d → snapshotWait patrolling retry = false := by
  intro d
  induction d with
  | zero =>
    intro retry hd
    unfold snapshotWait
    rw [dif_neg (by omega)]
  | succ n ih =>
    intro retry hd
    have hlt : retry < 10 := by omega
    unfold snapshotWait
    rw [dif_pos hlt]
    simp only [h retry hlt, if_true]
    exact ih (retry + 1) (by omega)

/-- C8: the snapshot request returns success when the patrol flag is Idle
at some poll of the ten-poll window, returns failure when it stays
Running through all of them, and in both cases leaves the
snapshot-request flag set (only the frame loop clears it). -/
theorem c8_snapshot_request (patrolling : ℕ → Bool) :
    ((∃ i, i < 10 ∧ patrolling i = false) → snapshot patrolling = (true, true)) ∧
    ((∀ i, i < 10 → patrolling i = true) → snapshot patrolling = (false, true)) := by
  constructor
  · rintro ⟨i, hi, hf⟩
    have hw := snapshotWait_idle_found patrolling i hi hf 10 0 rfl (by omega)
    simp [snapshot, hw]
  · intro h
    have hw := snapshotWait_never_idle patrolling h 10 0 rfl
    simp [snapshot, hw]

/-- Witness for C8: an always-idle patrol accepts at the first poll, an
always-running patrol exhausts the window and fails. -/
theorem c8_snapshot_request_witness :
    snapshot (fun _ => false) = (true, true) ∧
    snapshot (fun _ => true) = (false, true) :=
  ⟨(c8_snapshot_request (fun _ => false)).1 ⟨0, by decide, rfl⟩,
   (c8_snapshot_request (fun _ => true)).2 (fun _ _ => rfl)⟩

/-- C9: stop always completes: it sets the shared cancellation signal,
waits at most 102 poll sleeps for the listener to exit, closes the
socket and signals the decoder process; and a second call (a later
explicit stop, or the one the destructor makes) again completes within
the bound and leaves the state exactly as the first call left it. -/
theorem c9_stop_idempotent_bounded (alive alive2 : ℕ → Bool) (st : SessionFlags) :
    ((stopSession alive st).1.stop_event = true ∧
     (stopSession alive st).1.socket_closed = true ∧
     (stopSession alive st).1.decoder_signalled = true ∧
     (stopSession alive st).2 ≤ 102) ∧
    ((stopSession alive2 (stopSession alive st).1).1 = (stopSession alive st).1 ∧
     (stopSession alive2 (stopSession alive st).1).2 ≤ 102) := by
  obtain ⟨a, b, c⟩ := st
  refine ⟨⟨rfl, rfl, rfl, ?_⟩, rfl, ?_⟩
  · show joinWait alive 101 0 ≤ 102
    have := joinWait_le alive 101 0
    omega
  · show joinWait alive2 101 0 ≤ 102
    have := joinWait_le alive2 101 0
    omega

/-- C10: with detection enabled and a first rectangle whose geometric
errors all lie inside the threshold bands (horizontal offset within 30,
vertical within 15, area fraction between 0.02 and 0.30), a corrective
command is still dispatched for the frame, and it is `go 0 0 0 speed`
with all three movement terms zero. -/
theorem c10_in_band_zero_correction (speed : ℕ) (f : Rect) (faces : List Rect)
    (h1 : -30 ≤ FRAME_CENTER_X - ((f.x : ℚ) + (f.width : ℚ) / 2))
    (h2 : FRAME_CENTER_X - ((f.x : ℚ) + (f.width : ℚ) / 2) ≤ 30)
    (h3 : -15 ≤ FRAME_CENTER_Y - ((f.y : ℚ) + (f.height : ℚ) / 2))
    (h4 : FRAME_CENTER_Y - ((f.y : ℚ) + (f.height : ℚ) / 2) ≤ 15)
    (h5 : (0.02 : ℚ) ≤ ((f.width * f.height : ℕ) : ℚ) / (FRAME_AREA : ℚ))
    (h6 : ((f.width * f.height : ℕ) : ℚ) / (FRAME_AREA : ℚ) ≤ (0.30 : ℚ)) :
    trackingCommand speed (f :: faces) = some ⟨0, 0, 0, speed⟩ := by
  have hy : (trackingGo speed f).y = 0 := by
    rw [trackingGo_y_eq, if_neg (by linarith), if_neg (by linarith)]
  have hz : (trackingGo speed f).z = 0 := by
    rw [trackingGo_z_eq, if_neg (by linarith), if_neg (by linarith)]
  have hx : (trackingGo speed f).x = 0 := by
    rw [trackingGo_x_eq]
    have e2 : (0.02 : ℚ) = 2 / 100 := by norm_num
    have e3 : (0.30 : ℚ) = 3 / 10 := by norm_num
    rw [if_neg (by rw [e2]; rw [e2] at h5; linarith),
        if_neg (by rw [e3]; rw [e3] at h6; linarith)]
  have hgo : trackingGo speed f = ⟨0, 0, 0, speed⟩ := by
    ext
    · exact hx
    · exact hy
    · exact hz
    · rfl
  show some (trackingGo speed f) = some ⟨0, 0, 0, speed⟩
  rw [hgo]

/-- Witness for C10 at a centred 100 x 100 face. -/
theorem c10_in_band_zero_correction_witness :
    trackingCommand 10 [⟨110, 70, 100, 100⟩] = some ⟨0, 0, 0, 10⟩ :=
  c10_in_band_zero_correction 10 ⟨110, 70, 100, 100⟩ []
    (by with_unfolding_all decide) (by with_unfolding_all decide)
    (by with_unfolding_all decide) (by with_unfolding_all decide)
    (by with_unfolding_all decide) (by with_unfolding_all decide)
